import Mathlib

/-!
Shallow embedding of `src/models.py` of the near-earth-objects repository:
the `NearEarthObject` and `CloseApproach` data model, their constructors and
their derived representations.  Python floats are modelled by `PyFloat`
(a not-a-number sentinel or an exact rational); Python's `float(str)`
coercion by `parseFloat`; the format specifications `.2f`/`.3f` by
`formatFixed`.  The two helper functions imported by `models.py` from
`helpers.py` (`cd_to_datetime`, `datetime_to_str`) are not part of `src/`
and are modelled from the spec, as marked on their doc comments.
-/

set_option autoImplicit false

/-- An exact (possibly unnormalized) fraction: numerator over a positive
denominator.  Used to model the numeric value of a Python float exactly on
the decimal strings the data model handles. -/
structure Frac : Type where
  num : Int
  den : Nat
  deriving DecidableEq

/-- Numeric equality of two fractions, by cross-multiplication. -/
def Frac.eqv (a b : Frac) : Bool :=
  decide (a.num * (b.den : Int) = b.num * (a.den : Int))

/-- Negation of a fraction. -/
def Frac.neg (a : Frac) : Frac :=
  ⟨-a.num, a.den⟩

/-- Model of a Python float as far as `models.py` exercises it: either the
not-a-number sentinel (`float("nan")`, assigned for unknown diameters) or an
exact fractional value.  Rounding of binary floats is not modelled; the data
model only parses and re-formats decimal strings. -/
inductive PyFloat : Type where
  | nan : PyFloat
  | val : Frac → PyFloat
  deriving DecidableEq

/-- Python's `==` on floats: the not-a-number sentinel compares unequal to
everything, itself included (IEEE-754 semantics, used verbatim by
`NearEarthObject.__str__` on line 64 of `models.py`); two values compare by
their numeric value. -/
def pyEq : PyFloat → PyFloat → Bool
  | .val a, .val b => a.eqv b
  | _, _ => false

/-- Numeric value of a list of decimal digit characters. -/
def digitsVal (l : List Char) : Nat :=
  l.foldl (fun a c => a * 10 + (c.toNat - 48)) 0

/-- Parse an unsigned decimal literal (digits, optionally with a decimal
point; at least one digit overall) into a fraction over a power of ten. -/
def parseUnsigned (cs : List Char) : Option Frac :=
  let ip := cs.takeWhile Char.isDigit
  let rest := cs.dropWhile Char.isDigit
  match rest with
  | [] => if ip.isEmpty then none else some ⟨digitsVal ip, 1⟩
  | '.' :: frac =>
      if frac.all Char.isDigit && !(ip.isEmpty && frac.isEmpty) then
        some ⟨digitsVal ip * 10 ^ frac.length + digitsVal frac, 10 ^ frac.length⟩
      else none
  | _ => none

/-- Model of Python's `float(s)` coercion on the decimal strings of the data
set: an optional sign followed by a decimal literal.  `float("")` fails, as
in Python.  (Special alphabetic literals such as `"inf"` are outside the
data set and not modelled.) -/
def parseFloat (s : String) : Option PyFloat :=
  match s.data with
  | '-' :: rest => (parseUnsigned rest).map (fun q => PyFloat.val q.neg)
  | '+' :: rest => (parseUnsigned rest).map PyFloat.val
  | cs => (parseUnsigned cs).map PyFloat.val

/-- Decimal digits of a natural number, accumulator/fuel style so that the
kernel evaluates it. -/
def natDigits : Nat → Nat → List Char → List Char
  | 0, _, acc => acc
  | fuel + 1, n, acc =>
      if n = 0 then acc
      else natDigits fuel (n / 10) (Char.ofNat (48 + n % 10) :: acc)

/-- Decimal string of a natural number. -/
def natToString (n : Nat) : String :=
  if n = 0 then "0" else String.mk (natDigits (n + 1) n [])

/-- Left-pad a string with zeros to width `w`. -/
def padZeros (w : Nat) (s : String) : String :=
  String.mk (List.replicate (w - s.length) '0') ++ s

/-- A natural number printed with at least `w` digits. -/
def padNat (w n : Nat) : String :=
  padZeros w (natToString n)

/-- Model of Python's fixed-point format specification `.{prec}f` on a
`PyFloat`: the not-a-number sentinel prints as `"nan"` (as `format(float("nan"),
".3f")` does); a value prints with exactly `prec` fractional digits, scaled
as `floor(|q| * 10^prec + 1/2)`.  Ties round half-up on the exact value, a
simplification of CPython's half-even-on-the-binary-value that agrees on
every value used here. -/
def formatFixed (prec : Nat) : PyFloat → String
  | .nan => "nan"
  | .val q =>
      let neg := decide (q.num < 0)
      let scaled : Nat := (q.num.natAbs * 10 ^ prec * 2 + q.den) / (2 * q.den)
      let ip := scaled / 10 ^ prec
      let fp := scaled % 10 ^ prec
      (if neg then "-" else "") ++ natToString ip ++
        (if prec = 0 then "" else "." ++ padNat prec fp)

/-- A timezone-naive UTC instant, the model of the Python `datetime` stored
in `CloseApproach.time`. -/
structure Datetime : Type where
  year : Nat
  month : Nat
  day : Nat
  hour : Nat
  minute : Nat
  second : Nat
  deriving DecidableEq

/-- The datetime with its seconds field replaced. -/
def Datetime.withSecond (t : Datetime) (s : Nat) : Datetime :=
  { t with second := s }

/-- Split a character list on a separator character. -/
def splitChar (sep : Char) : List Char → List (List Char)
  | [] => [[]]
  | c :: rest =>
      match splitChar sep rest with
      | [] => [[c]]
      | g :: gs => if c = sep then [] :: g :: gs else (c :: g) :: gs

/-- Parse a nonempty all-digit character list. -/
def parseNat (l : List Char) : Option Nat :=
  if l.isEmpty then none
  else if l.all Char.isDigit then some (digitsVal l) else none

/-- Modelled from the spec: `cd_to_datetime` lives in `helpers.py`, which is
not under `src/`.  Spec section 6: "A date-time parsing function: raw compact
date-time string → UTC datetime value (format: `M/D/YY H:MM`, 2-digit year,
no seconds)", and section 4.2: malformed time strings are a fatal
construction error.  Two-digit years are placed in the 2000s; the parsed
instant carries no seconds. -/
def cd_to_datetime (s : String) : Option Datetime :=
  match splitChar ' ' s.data with
  | [date, tim] =>
      match splitChar '/' date, splitChar ':' tim with
      | [m, d, y], [h, mi] =>
          match parseNat m, parseNat d, parseNat y, parseNat h, parseNat mi with
          | some mv, some dv, some yv, some hv, some miv =>
              if 1 ≤ mv && mv ≤ 12 && 1 ≤ dv && dv ≤ 31 && yv ≤ 99 &&
                  hv ≤ 23 && miv ≤ 59 then
                some ⟨2000 + yv, mv, dv, hv, miv, 0⟩
              else none
          | _, _, _, _, _ => none
      | _, _ => none
  | _ => none

/-- Modelled from the spec: `datetime_to_str` lives in `helpers.py`, which is
not under `src/`.  Spec section 6: "A date-time formatting function: UTC
datetime value → canonical string `YYYY-MM-DD HH:MM`"; section 4.2: the
format carries no seconds and no sub-minute precision. -/
def datetime_to_str (t : Datetime) : String :=
  padNat 4 t.year ++ "-" ++ padNat 2 t.month ++ "-" ++ padNat 2 t.day ++ " " ++
    padNat 2 t.hour ++ ":" ++ padNat 2 t.minute

mutual
/-- State of a Python `NearEarthObject` (`models.py` lines 23-73): the
attributes written by `__init__` plus the `_fullname` attribute that the
`fullname` property writes on every read (`none` while the attribute does
not exist yet). -/
inductive NearEarthObject : Type where
  | mk (designation : String) (name : Option String) (diameter : PyFloat)
      (hazardous : Bool) (approaches : List CloseApproach)
      (fullnameCache : Option String) : NearEarthObject

/-- State of a Python `CloseApproach` (`models.py` lines 76-133): the
`_designation`, `time`, `distance`, `velocity` and `neo` attributes written
by `__init__`; `neo` is `none` until the external linker assigns it. -/
inductive CloseApproach : Type where
  | mk (internalDesignation : String) (time : Datetime) (distance : PyFloat)
      (velocity : PyFloat) (neo : Option NearEarthObject) : CloseApproach
end

def NearEarthObject.designation : NearEarthObject → String
  | .mk d _ _ _ _ _ => d

def NearEarthObject.name : NearEarthObject → Option String
  | .mk _ n _ _ _ _ => n

def NearEarthObject.diameter : NearEarthObject → PyFloat
  | .mk _ _ di _ _ _ => di

def NearEarthObject.hazardous : NearEarthObject → Bool
  | .mk _ _ _ h _ _ => h

def NearEarthObject.approaches : NearEarthObject → List CloseApproach
  | .mk _ _ _ _ a _ => a

def NearEarthObject.fullnameCache : NearEarthObject → Option String
  | .mk _ _ _ _ _ c => c

/-- The object with only its `_fullname` attribute replaced. -/
def NearEarthObject.withFullnameCache : NearEarthObject → Option String → NearEarthObject
  | .mk d n di h a _, c => .mk d n di h a c

def CloseApproach.internalDesignation : CloseApproach → String
  | .mk d _ _ _ _ => d

def CloseApproach.time : CloseApproach → Datetime
  | .mk _ t _ _ _ => t

def CloseApproach.distance : CloseApproach → PyFloat
  | .mk _ _ d _ _ => d

def CloseApproach.velocity : CloseApproach → PyFloat
  | .mk _ _ _ v _ => v

def CloseApproach.neo : CloseApproach → Option NearEarthObject
  | .mk _ _ _ _ n => n

/-- The approach with only its `time` attribute replaced. -/
def CloseApproach.withTime : CloseApproach → Datetime → CloseApproach
  | .mk d _ di v n, t => .mk d t di v n

/-- The `fullname` property (`models.py` lines 52-59).  It computes the full
name, writes it into the `_fullname` attribute, and returns it; the result is
the returned string paired with the object's state after the read. -/
def NearEarthObject.fullname : NearEarthObject → String × NearEarthObject
  | .mk d n di h a _ =>
      match n with
      | some nm =>
          let v := d ++ " (" ++ nm ++ ")"
          (v, .mk d n di h a (some v))
      | none => (d, .mk d n di h a (some d))

/-- `NearEarthObject.__str__` (`models.py` lines 61-66), with the two
f-string pieces spliced in: the diameter clause is selected by the Python
comparison `self.diameter == float('nan')`, modelled by `pyEq`. -/
def NearEarthObject.str (n : NearEarthObject) : String :=
  "The NearEarthObject '" ++ (n.fullname).1 ++ "' has " ++
    (if pyEq n.diameter PyFloat.nan then "an unknown diameter"
     else "a diameter of " ++ formatFixed 3 n.diameter) ++
    " km and " ++ (if n.hazardous then "is" else "is not") ++
    " potentially hazardous."

/-- Model of Python's `repr` on a string without quotes or escapes in it, as
used by the `!r` conversions of `models.py`. -/
def pyStrRepr (s : String) : String :=
  "'" ++ s ++ "'"

/-- Model of Python's `repr` on an optional string: `None` or the quoted
string. -/
def optStrRepr : Option String → String
  | none => "None"
  | some s => pyStrRepr s

/-- `NearEarthObject.__repr__` (`models.py` lines 68-73). -/
def NearEarthObject.reprStr (n : NearEarthObject) : String :=
  "NearEarthObject(designation=" ++ pyStrRepr n.designation ++
    ", name=" ++ optStrRepr n.name ++
    ", diameter=" ++ formatFixed 3 n.diameter ++
    ", hazardous=" ++ (if n.hazardous then "True" else "False") ++ ")"

/-- `NearEarthObject.__init__` (`models.py` lines 36-50) on raw string
fields: `str` coercion is the identity on strings; an empty name becomes
`None`; an empty diameter becomes the not-a-number sentinel while a nonempty
one goes through `float(...)`, whose failure (a `ValueError`) propagates and
is modelled by `none`; the hazardous flag compares against `"Y"`; the
approaches collection starts empty; the `_fullname` attribute does not exist
yet. -/
def NearEarthObject.make (designation name diameter hazardous : String) :
    Option NearEarthObject :=
  (if diameter ≠ "" then parseFloat diameter else some PyFloat.nan).map fun dv =>
    NearEarthObject.mk designation (if name ≠ "" then some name else none) dv
      (if hazardous = "Y" then true else false) [] none

/-- The `time_str` property (`models.py` lines 106-119): formats `self.time`
through `datetime_to_str`. -/
def CloseApproach.time_str (c : CloseApproach) : String :=
  datetime_to_str c.time

/-- `CloseApproach.__str__` (`models.py` lines 121-126): the f-string embeds
`self.neo.fullname` when `self.neo` is not `None`, and otherwise the value
`None`, which Python renders as the literal string `None`. -/
def CloseApproach.str (c : CloseApproach) : String :=
  "At " ++ c.time_str ++ ", '" ++
    (match c.neo with
     | some n => (n.fullname).1
     | none => "None") ++
    "' approaches Earth at a distance of " ++ formatFixed 2 c.distance ++
    " au and a velocity of " ++ formatFixed 2 c.velocity ++ " km/s."

/-- `CloseApproach.__repr__` (`models.py` lines 128-133); `self.neo!r` is the
NEO's `__repr__`, or `None` when unlinked. -/
def CloseApproach.reprStr (c : CloseApproach) : String :=
  "CloseApproach(time=" ++ pyStrRepr c.time_str ++
    ", distance=" ++ formatFixed 2 c.distance ++
    ", velocity=" ++ formatFixed 2 c.velocity ++
    ", neo=" ++
    (match c.neo with
     | some n => n.reprStr
     | none => "None") ++ ")"

/-- `CloseApproach.__init__` (`models.py` lines 90-104) on raw string
fields: the designation is kept in the private pre-link attribute; the time
string goes through `cd_to_datetime` and distance and velocity through
`float(...)`, any failure of which (`ValueError`) propagates and is modelled
by `none`; the `neo` reference starts as `None`. -/
def CloseApproach.make (designation time distance velocity : String) :
    Option CloseApproach :=
  match cd_to_datetime time with
  | none => none
  | some t =>
      match parseFloat distance with
      | none => none
      | some dq =>
          match parseFloat velocity with
          | none => none
          | some vq => some (.mk designation t dq vq none)

/-- The NEO built by `NearEarthObject("2020 AB", "", "", "Y")`, the scenario
of spec section 8. -/
def neoUnknown : NearEarthObject :=
  NearEarthObject.mk "2020 AB" none PyFloat.nan true [] none

/-- The NEO built by `NearEarthObject("433", "Eros", "", "N")`. -/
def neoEros : NearEarthObject :=
  NearEarthObject.mk "433" (some "Eros") PyFloat.nan false [] none

/-- The NEO built by `NearEarthObject("433", "", "", "N")`. -/
def neo433 : NearEarthObject :=
  NearEarthObject.mk "433" none PyFloat.nan false [] none

/-- The NEO built by `NearEarthObject("1", "", "", "Y")`. -/
def neoHaz : NearEarthObject :=
  NearEarthObject.mk "1" none PyFloat.nan true [] none

/-- The NEO built by `NearEarthObject("1", "", "", "y")`: lowercase flag. -/
def neoNotHaz : NearEarthObject :=
  NearEarthObject.mk "1" none PyFloat.nan false [] none

/-- The NEO built by `NearEarthObject("2", "Lutetia", "", "N")`. -/
def neoLutetia : NearEarthObject :=
  NearEarthObject.mk "2" (some "Lutetia") PyFloat.nan false [] none

/-- The datetime parsed from `"1/1/20 12:00"`. -/
def dtEx : Datetime := ⟨2020, 1, 1, 12, 0, 0⟩

/-- An unlinked close approach at 1900-01-01 12:00, 0.15 au, 5.5 km/s (the
scenario of spec section 8). -/
def caEx : CloseApproach :=
  CloseApproach.mk "433" ⟨1900, 1, 1, 12, 0, 0⟩ (PyFloat.val ⟨15, 100⟩)
    (PyFloat.val ⟨55, 10⟩) none

/-- Claim C1 (code_bug): `NearEarthObject.__str__` selects the diameter
clause with the Python comparison `self.diameter == float('nan')`, which is
always `False` under IEEE-754 semantics, so the "unknown diameter" branch is
dead: the NEO constructed with an empty diameter string has the not-a-number
diameter, yet its description reads "a diameter of nan", never the "unknown
diameter" phrase the spec requires (spec sections 8 and 9 demand a proper
is-not-a-number test). -/
theorem C1_nan_detection_bug :
    (∀ d : PyFloat, pyEq d PyFloat.nan = false) ∧
    NearEarthObject.make "2020 AB" "" "" "Y" = some neoUnknown ∧
    neoUnknown.diameter = PyFloat.nan ∧
    neoUnknown.str =
      "The NearEarthObject '2020 AB' has a diameter of nan km and is potentially hazardous." := by
  refine ⟨fun d => ?_, rfl, rfl, by decide⟩
  cases d <;> rfl

/-- Claim C2: a `NearEarthObject` constructed from string inputs stores
`none` for an empty name input, in which case `fullname` is the designation
alone, and otherwise stores the name itself, in which case `fullname` is
`"designation (name)"`. -/
theorem C2_name_fullname (desig nm dia haz : String) (n : NearEarthObject)
    (h : NearEarthObject.make desig nm dia haz = some n) :
    (nm = "" → n.name = none ∧ (n.fullname).1 = desig) ∧
    (nm ≠ "" → n.name = some nm ∧ (n.fullname).1 = desig ++ " (" ++ nm ++ ")") := by
  obtain ⟨dv, -, rfl⟩ := Option.map_eq_some'.1 h
  constructor
  · intro he
    subst he
    simp [NearEarthObject.name, NearEarthObject.fullname]
  · intro hne
    simp [NearEarthObject.name, NearEarthObject.fullname, hne]

/-- Witness for C2 at the inputs `("433", "Eros", "", "N")`. -/
theorem C2_witness :
    NearEarthObject.make "433" "Eros" "" "N" = some neoEros ∧
    neoEros.name = some "Eros" ∧ (neoEros.fullname).1 = "433 (Eros)" := by
  have h := (C2_name_fullname "433" "Eros" "" "N" neoEros rfl).2 (by decide)
  exact ⟨rfl, h.1, h.2.trans (by decide)⟩

/-- Claim C3: the stored hazardous flag is true exactly when the raw
hazardous input is the literal string `"Y"`. -/
theorem C3_hazardous_flag (desig nm dia haz : String) (n : NearEarthObject)
    (h : NearEarthObject.make desig nm dia haz = some n) :
    n.hazardous = true ↔ haz = "Y" := by
  obtain ⟨dv, -, rfl⟩ := Option.map_eq_some'.1 h
  by_cases hy : haz = "Y" <;> simp [NearEarthObject.hazardous, hy]

/-- Witness for C3 at the inputs `("1", "", "", "Y")` and, for the lowercase
flag, `("1", "", "", "y")`. -/
theorem C3_witness :
    NearEarthObject.make "1" "" "" "Y" = some neoHaz ∧ neoHaz.hazardous = true ∧
    NearEarthObject.make "1" "" "" "y" = some neoNotHaz ∧
    neoNotHaz.hazardous = false := by
  refine ⟨rfl, (C3_hazardous_flag "1" "" "" "Y" neoHaz rfl).2 rfl, rfl, rfl⟩

/-- Counterexample to C4 as stated: reading `fullname` does not leave the
object's attribute state unchanged — on the freshly constructed NEO it
writes the `_fullname` attribute. -/
theorem C4_counterexample : (neoUnknown.fullname).2 ≠ neoUnknown := by
  intro h
  have hc := congrArg NearEarthObject.fullnameCache h
  simp [neoUnknown, NearEarthObject.fullname, NearEarthObject.fullnameCache] at hc

/-- Claim C4, amended: `time_str` is a pure read-only derivation of the
stored time, and `fullname` recomputes its value on every access and leaves
every attribute unchanged except `_fullname`, into which it writes the value
it returns (so a read does mutate the attribute state, but only that cache
field, which is never consulted). -/
theorem C4_fullname_frame (n : NearEarthObject) (c : CloseApproach) :
    (n.fullname).2 = n.withFullnameCache (some (n.fullname).1) ∧
    c.time_str = datetime_to_str c.time := by
  refine ⟨?_, rfl⟩
  cases n with
  | mk d nm di h a cache => cases nm <;> rfl

/-- Counterexample to C5 as stated: the empty designation input yields an
empty stored designation (coercion is the only validation). -/
theorem C5_counterexample :
    NearEarthObject.make "" "" "" "" =
      some (NearEarthObject.mk "" none PyFloat.nan false [] none) ∧
    (NearEarthObject.mk "" none PyFloat.nan false [] none).designation = "" :=
  ⟨rfl, rfl⟩

/-- Claim C5, amended: the stored designation is exactly the (string)
designation input — hence nonempty exactly when the input is nonempty — and
no subsequent operation changes it (reading `fullname`, the only operation
that writes any attribute, preserves it). -/
theorem C5_designation (desig nm dia haz : String) (n : NearEarthObject)
    (h : NearEarthObject.make desig nm dia haz = some n) :
    n.designation = desig ∧ ((n.fullname).2).designation = desig ∧
    (desig ≠ "" → n.designation ≠ "") := by
  obtain ⟨dv, -, rfl⟩ := Option.map_eq_some'.1 h
  refine ⟨rfl, ?_, ?_⟩
  · by_cases hnm : nm = "" <;>
      simp [NearEarthObject.fullname, NearEarthObject.designation, hnm]
  · intro hne
    simpa [NearEarthObject.designation] using hne

/-- Witness for C5 at the inputs `("433", "", "", "N")`. -/
theorem C5_witness :
    NearEarthObject.make "433" "" "" "N" = some neo433 ∧
    neo433.designation = "433" ∧ ((neo433.fullname).2).designation = "433" ∧
    neo433.designation ≠ "" := by
  have h := C5_designation "433" "" "" "N" neo433 rfl
  exact ⟨rfl, h.1, h.2.1, h.2.2 (by decide)⟩

/-- Claim C6: `time_str` formats the stored time as `YYYY-MM-DD HH:MM`
(year padded to 4 digits, the rest to 2) and is unchanged by any change of
the seconds carried by the underlying datetime value. -/
theorem C6_time_str_format (c : CloseApproach) (s : Nat) :
    (c.withTime (c.time.withSecond s)).time_str = c.time_str ∧
    c.time_str =
      padNat 4 c.time.year ++ "-" ++ padNat 2 c.time.month ++ "-" ++
        padNat 2 c.time.day ++ " " ++ padNat 2 c.time.hour ++ ":" ++
        padNat 2 c.time.minute := by
  cases c with
  | mk d t di v n => exact ⟨rfl, rfl⟩

/-- Counterexample to C7 as stated: a `CloseApproach` whose distance input
is the empty string fails to construct (Python's `float("")` raises), even
though no non-empty numeric field is unparsable — so "raises exactly when a
non-empty diameter, distance, or velocity input cannot be parsed" does not
hold. -/
theorem C7_counterexample :
    cd_to_datetime "1/1/20 12:00" = some dtEx ∧
    parseFloat "5.5" = some (PyFloat.val ⟨55, 10⟩) ∧
    CloseApproach.make "433" "1/1/20 12:00" "" "5.5" = none := by
  exact ⟨by decide, by decide, rfl⟩

/-- Claim C7, amended: `NearEarthObject` construction fails exactly when the
diameter input is non-empty and unparsable as a float (an empty diameter is
silently normalized to the not-a-number sentinel, an empty name to `None`);
`CloseApproach` construction (with a well-formed time input) fails exactly
when the distance or velocity input is unparsable as a float — and for
these two required fields the empty string is itself unparsable, hence an
error. -/
theorem C7_construction_errors (desig nm dia haz t dist vel : String)
    (dt : Datetime) (ht : cd_to_datetime t = some dt) :
    (NearEarthObject.make desig nm dia haz = none ↔
      dia ≠ "" ∧ parseFloat dia = none) ∧
    (CloseApproach.make desig t dist vel = none ↔
      parseFloat dist = none ∨ parseFloat vel = none) ∧
    parseFloat "" = none ∧
    (∀ n, NearEarthObject.make desig nm "" haz = some n →
      n.diameter = PyFloat.nan) ∧
    (∀ n, NearEarthObject.make desig "" dia haz = some n → n.name = none) := by
  refine ⟨?_, ?_, by decide, ?_, ?_⟩
  · by_cases hd : dia = ""
    · subst hd
      simp [NearEarthObject.make]
    · cases hp : parseFloat dia <;> simp [NearEarthObject.make, hd, hp]
  · simp only [CloseApproach.make, ht]
    cases hp : parseFloat dist <;> cases hv : parseFloat vel <;> simp
  · intro n hn
    obtain ⟨dv, hdv, rfl⟩ := Option.map_eq_some'.1 hn
    simp at hdv
    simp [NearEarthObject.diameter, hdv]
  · intro n hn
    obtain ⟨dv, -, rfl⟩ := Option.map_eq_some'.1 hn
    simp [NearEarthObject.name]

/-- Witness for C7 at a well-formed time input and the inputs
`("433", "1/1/20 12:00", "0.15", "5.5")`, which construct successfully. -/
theorem C7_witness :
    cd_to_datetime "1/1/20 12:00" = some dtEx ∧
    CloseApproach.make "433" "1/1/20 12:00" "0.15" "5.5" ≠ none := by
  have h := C7_construction_errors "433" "" "" "N" "1/1/20 12:00" "0.15" "5.5"
    dtEx rfl
  refine ⟨rfl, fun hn => ?_⟩
  rcases h.2.1.mp hn with hp | hp <;> exact absurd hp (by decide)

/-- Claim C8: reading the description of a `CloseApproach` is never an
error; while `neo` is `None` the name slot degrades to the literal `None`,
and once linked it is the linked NEO's `fullname`, around the fixed sentence
with the distance and velocity formatted to 2 decimal places. -/
theorem C8_unlinked_description (c : CloseApproach) :
    (c.neo = none →
      c.str = "At " ++ c.time_str ++ ", '" ++ "None" ++
        "' approaches Earth at a distance of " ++ formatFixed 2 c.distance ++
        " au and a velocity of " ++ formatFixed 2 c.velocity ++ " km/s.") ∧
    (∀ m, c.neo = some m →
      c.str = "At " ++ c.time_str ++ ", '" ++ (m.fullname).1 ++
        "' approaches Earth at a distance of " ++ formatFixed 2 c.distance ++
        " au and a velocity of " ++ formatFixed 2 c.velocity ++ " km/s.") := by
  cases c with
  | mk d t di v n =>
    constructor
    · intro hn
      simp only [CloseApproach.neo] at hn
      subst hn
      rfl
    · intro m hm
      simp only [CloseApproach.neo] at hm
      subst hm
      rfl

/-- Witness for C8 at the unlinked approach of spec section 8's scenario:
the full rendered sentence, with the literal `None` in the name slot. -/
theorem C8_witness :
    caEx.neo = none ∧
    caEx.str =
      "At 1900-01-01 12:00, 'None' approaches Earth at a distance of 0.15 au and a velocity of 5.50 km/s." := by
  refine ⟨rfl, ?_⟩
  have h := (C8_unlinked_description caEx).1 rfl
  rw [h]
  decide

/-- Claim C9: a `NearEarthObject` constructed from string inputs never
stores the empty string as its name — the name is `none` exactly for the
empty name input, and otherwise the (nonempty) input itself. -/
theorem C9_name_invariant (desig nm dia haz : String) (n : NearEarthObject)
    (h : NearEarthObject.make desig nm dia haz = some n) :
    n.name ≠ some "" ∧
    ((nm = "" ∧ n.name = none) ∨ (nm ≠ "" ∧ n.name = some nm)) := by
  obtain ⟨dv, -, rfl⟩ := Option.map_eq_some'.1 h
  by_cases hnm : nm = ""
  · subst hnm
    simp [NearEarthObject.name]
  · simp [NearEarthObject.name, hnm]

/-- Witness for C9 at the inputs `("2", "Lutetia", "", "N")`. -/
theorem C9_witness :
    NearEarthObject.make "2" "Lutetia" "" "N" = some neoLutetia ∧
    neoLutetia.name ≠ some "" ∧ neoLutetia.name = some "Lutetia" := by
  have h := C9_name_invariant "2" "Lutetia" "" "N" neoLutetia rfl
  refine ⟨rfl, h.1, ?_⟩
  rcases h.2 with ⟨he, -⟩ | ⟨-, hs⟩
  · exact absurd he (by decide)
  · exact hs

/-- Claim C10: `time_str`, the description and the machine representation of
a `CloseApproach` never read the internal pre-link `_designation`: two
states agreeing on time, distance, velocity and `neo` produce identical
outputs whatever their internal designations. -/
theorem C10_designation_noninterference (c₁ c₂ : CloseApproach)
    (ht : c₁.time = c₂.time) (hd : c₁.distance = c₂.distance)
    (hv : c₁.velocity = c₂.velocity) (hn : c₁.neo = c₂.neo) :
    c₁.time_str = c₂.time_str ∧ c₁.str = c₂.str ∧ c₁.reprStr = c₂.reprStr := by
  cases c₁ with
  | mk d₁ t₁ di₁ v₁ n₁ =>
    cases c₂ with
    | mk d₂ t₂ di₂ v₂ n₂ =>
      simp only [CloseApproach.time, CloseApproach.distance,
        CloseApproach.velocity, CloseApproach.neo] at ht hd hv hn
      subst ht; subst hd; subst hv; subst hn
      exact ⟨rfl, rfl, rfl⟩

/-- An unlinked approach with internal designation `"433"`. -/
def caDesigA : CloseApproach :=
  CloseApproach.mk "433" ⟨2020, 1, 1, 0, 0, 0⟩ (PyFloat.val ⟨1, 1⟩)
    (PyFloat.val ⟨2, 1⟩) none

/-- The same approach state with internal designation `"99942"`. -/
def caDesigB : CloseApproach :=
  CloseApproach.mk "99942" ⟨2020, 1, 1, 0, 0, 0⟩ (PyFloat.val ⟨1, 1⟩)
    (PyFloat.val ⟨2, 1⟩) none

/-- Witness for C10 at two approaches that differ only in their internal
designations. -/
theorem C10_witness :
    caDesigA.internalDesignation ≠ caDesigB.internalDesignation ∧
    caDesigA.time_str = caDesigB.time_str ∧ caDesigA.str = caDesigB.str ∧
    caDesigA.reprStr = caDesigB.reprStr := by
  refine ⟨by decide, ?_⟩
  exact C10_designation_noninterference caDesigA caDesigB rfl rfl rfl rfl
